import Mathlib

/-
Verification of the DaVinci Resolve deliver-hook notifier (src/job_notif.py)
against its natural-language specification.

The script is shallowly embedded: Python values are modelled by the mutual
inductive type PyVal / PyList / PyDict, pure functions of the script become
Lean functions of the same name, and the effectful parts (filesystem, host
API, Slack client, subprocesses) are modelled by explicit state or by
environment records whose fields stand for the outcome of each external call.
-/

namespace JobNotif

/- Python/JSON values, as far as the script manipulates them.
`PyDict` keeps entries in insertion order; lookups return the first
matching key (Python dicts have unique keys, so this agrees with them). -/
mutual

inductive PyVal where
  | none
  | bool (b : Bool)
  | int (n : Int)
  | str (s : String)
  | list (xs : PyList)
  | dict (es : PyDict)

inductive PyList where
  | nil
  | cons (hd : PyVal) (tl : PyList)

inductive PyDict where
  | nil
  | cons (key : String) (val : PyVal) (tl : PyDict)

end

def PyList.isNil : PyList → Bool
  | .nil => true
  | .cons _ _ => false

def PyDict.isNil : PyDict → Bool
  | .nil => true
  | .cons _ _ _ => false

/-- Python truthiness (`bool(v)`): None, False, 0, "", [], {} are falsy. -/
def truthy : PyVal → Bool
  | .none => false
  | .bool b => b
  | .int n => n != 0
  | .str s => s != ""
  | .list xs => !xs.isNil
  | .dict es => !es.isNil

/-- Python `a or b`: the first operand if it is truthy, else the second. -/
def pyOr (a b : PyVal) : PyVal :=
  if truthy a then a else b

/-- Python `d.get(key, dflt)` on a dict. -/
def dictGet : PyDict → String → PyVal → PyVal
  | .nil, _, dflt => dflt
  | .cons k v tl, key, dflt => if k == key then v else dictGet tl key dflt

def isNone : PyVal → Bool
  | .none => true
  | _ => false

def isDict : PyVal → Bool
  | .dict _ => true
  | _ => false

/-- Separator join, the model of Python `sep.join(parts)`. -/
def joinSep (sep : String) : List String → String
  | [] => ""
  | [p] => p
  | p :: rest => p ++ sep ++ joinSep sep rest

/- Python `repr(v)`, approximated: string escaping inside `repr` of a
string is not modelled (no claim depends on it). -/
mutual

def pyRepr : PyVal → String
  | .none => "None"
  | .bool b => if b then "True" else "False"
  | .int n => Int.repr n
  | .str s => "\x27" ++ s ++ "\x27"
  | .list xs => "[" ++ pyReprList xs ++ "]"
  | .dict es => "\x7b" ++ pyReprDict es ++ "\x7d"

def pyReprList : PyList → String
  | .nil => ""
  | .cons v .nil => pyRepr v
  | .cons v tl => pyRepr v ++ ", " ++ pyReprList tl

def pyReprDict : PyDict → String
  | .nil => ""
  | .cons k v .nil => "\x27" ++ k ++ "\x27: " ++ pyRepr v
  | .cons k v tl => "\x27" ++ k ++ "\x27: " ++ pyRepr v ++ ", " ++ pyReprDict tl

end

/-- Python `str(v)`: the string itself for strings, `repr`-style otherwise. -/
def pyStr : PyVal → String
  | .str s => s
  | v => pyRepr v

def intOfBool (b : Bool) : Int :=
  if b then 1 else 0

/- Python `==`, approximated: `True == 1` and `False == 0` hold as in
Python; dict comparison is modelled entry-order-sensitively (the script
only ever compares job-id values, which are strings or ints). -/
mutual

def pyEq : PyVal → PyVal → Bool
  | .none, .none => true
  | .bool a, .bool b => a == b
  | .bool a, .int n => intOfBool a == n
  | .int n, .bool b => n == intOfBool b
  | .int m, .int n => m == n
  | .str s, .str t => s == t
  | .list xs, .list ys => pyEqList xs ys
  | .dict es, .dict fs => pyEqDict es fs
  | _, _ => false

def pyEqList : PyList → PyList → Bool
  | .nil, .nil => true
  | .cons a as, .cons b bs => pyEq a b && pyEqList as bs
  | _, _ => false

def pyEqDict : PyDict → PyDict → Bool
  | .nil, .nil => true
  | .cons k v tl, .cons k2 v2 tl2 => k == k2 && pyEq v v2 && pyEqDict tl tl2
  | _, _ => false

end

/-- Model of Python `str.strip()` with no argument: remove leading and
trailing whitespace (Python also strips some rarer unicode whitespace,
which no claim depends on). -/
def pyStrip (s : String) : String :=
  (((s.data.dropWhile Char.isWhitespace).reverse.dropWhile Char.isWhitespace).reverse).asString

/-- Model of `os.path.expanduser` for the forms the script uses:
a leading `~` or `~/...` is replaced by the home directory (assumed not to
end in a slash); other paths are returned unchanged. -/
def expanduser (home s : String) : String :=
  if s == "~" then home
  else if s.startsWith "~/" then home ++ s.drop 1
  else s

/-- Model of `os.path.join(base, f)` for a single relative or absolute
second component (posixpath semantics, as on the macOS target). -/
def joinPath (base f : String) : String :=
  if f.startsWith "/" then f
  else if base == "" || base.endsWith "/" then base ++ f
  else base ++ "/" ++ f

/-- State of the configuration file on disk. `invalid` covers an
unreadable file, a file that is empty after strip, and malformed JSON;
`json v` is a file whose text parses as the JSON value `v`. -/
inductive ConfigFile where
  | absent
  | invalid
  | json (v : PyVal)

/-- The template object written by `ensure_config_exists` on first run
(source lines 62-66). -/
def template : PyVal :=
  .dict (.cons "slack_token" (.str "xoxb-REPLACE_WITH_YOUR_TOKEN")
    (.cons "channel_name" (.str "CXXXXXXXX")
      (.cons "log_directory" (.str "~/Desktop/resolve_slack_deliver_\x7b\x7bdate\x7d\x7d.log") .nil)))

/-- Source `ensure_config_exists` (lines 55-78): if the file exists return
True; otherwise write the template and return False. `writeOk` models
whether `makedirs`/`open`/`json.dump` succeed; on failure the except arm
also returns False. -/
def ensure_config_exists (writeOk : Bool) : ConfigFile → Bool × ConfigFile
  | .absent => if writeOk then (false, .json template) else (false, .absent)
  | f => (true, f)

/-- Source `load_config` (lines 80-90): read the file, reject empty or
malformed text, reject a JSON root that is not an object. -/
def load_config : ConfigFile → Except String PyDict
  | .absent => .error "cannot open config file"
  | .invalid => .error "config file empty or malformed"
  | .json (.dict es) => .ok es
  | .json _ => .error "Config root must be a JSON object"

/-- Source `build_log_path` (lines 168-178): take `log_directory` from the
config (default `~/Desktop`), replace it by `~/Desktop` when it is not a
string or blank after strip, expand the home shorthand, and join with the
date-stamped filename. `home` and `today` stand for the ambient home
directory and `datetime.now()` date. -/
def build_log_path (cfg : PyDict) (home today : String) : String :=
  let base_dir := dictGet cfg "log_directory" (.str "~/Desktop")
  let base_dir2 := match base_dir with
    | .str s => if pyStrip s == "" then "~/Desktop" else s
    | _ => "~/Desktop"
  let expanded := expanduser home base_dir2
  let filename := "resolve_slack_deliver_" ++ today ++ ".log"
  joinPath expanded filename

/-- Module-level default LOG_PATH (source line 42), used before the config
is loaded. -/
def defaultLogPath (home today : String) : String :=
  expanduser home ("~/Desktop/resolve_slack_deliver_" ++ today ++ ".log")

/-- Result of `init_from_config`: the returned flag together with the
globals it assigns (`slack_token`, `channel_name`, `LOG_PATH`) and the
on-disk config state after the call. -/
structure InitResult where
  ok : Bool
  file : ConfigFile
  slack_token : String
  channel_name : String
  logPath : String

/-- Source `init_from_config` (lines 92-129). `mkdirOk` models whether the
log directory exists or can be created. Any `load_config` exception is
caught and turned into a False return (lines 126-129). -/
def init_from_config (writeOk mkdirOk : Bool) (file0 : ConfigFile)
    (home today : String) : InitResult :=
  match ensure_config_exists writeOk file0 with
  | (false, f) => ⟨false, f, "", "", defaultLogPath home today⟩
  | (true, f) =>
    match load_config f with
    | .error _ => ⟨false, f, "", "", defaultLogPath home today⟩
    | .ok cfg =>
      let slack_token := pyStrip (pyStr (dictGet cfg "slack_token" (.str "")))
      let channel_name := pyStrip (pyStr (dictGet cfg "channel_name" (.str "")))
      let logPath := build_log_path cfg home today
      if !mkdirOk then ⟨false, f, slack_token, channel_name, logPath⟩
      else if slack_token == "" then ⟨false, f, slack_token, channel_name, logPath⟩
      else if channel_name == "" then ⟨false, f, slack_token, channel_name, logPath⟩
      else ⟨true, f, slack_token, channel_name, logPath⟩

/-- Source `pick_status` (lines 218-227). -/
def pick_status (status_global detailed_status : PyVal) : String :=
  if truthy status_global then pyStr status_global
  else
    let s := match detailed_status with
      | .dict es => pyOr (dictGet es "Status" .none) (dictGet es "status" .none)
      | _ => PyVal.none
    if truthy s then pyStr s
    else if truthy detailed_status then pyStr detailed_status
    else "Unknown"

/-- Source `build_slack_message` (lines 229-259). The arrow segment uses
the three characters U+00E2, U+2020, U+2019 because those are the exact
characters in the source file at line 254 (a mis-encoded right arrow). -/
def build_slack_message (project_name status_global error_global
    job_details detailed_status : PyVal) : String :=
  let st := pick_status status_global detailed_status
  let timeline := match job_details with
    | .dict es => pyOr (pyOr (dictGet es "TimelineName" .none) (dictGet es "Timeline" .none)) PyVal.none
    | _ => PyVal.none
  let outname := match job_details with
    | .dict es =>
      pyOr (pyOr (pyOr (dictGet es "OutputFilename" .none) (dictGet es "FileName" .none))
        (dictGet es "CustomName" .none)) PyVal.none
    | _ => PyVal.none
  let parts := [st]
    ++ (if truthy project_name then ["[" ++ pyStr project_name ++ "]"] else [])
    ++ (if truthy timeline then [pyStr timeline] else [])
    ++ (if truthy outname then ["â†’ " ++ pyStr outname] else [])
    ++ (if truthy error_global then ["(Error: " ++ pyStrip (pyStr error_global) ++ ")"] else [])
  joinSep " " parts

/-- The host project handle, reduced to the three calls the script makes.
Each field records the outcome of the corresponding Resolve API call:
`Except.error ()` models the call raising. -/
structure Project where
  name : Except Unit String
  renderJobList : Except Unit (Option (List PyVal))
  renderJobStatus : PyVal → Except Unit PyVal

/-- The scan loop inside `get_job_details` (lines 202-208): a record whose
`JobId` read raises (in this model: a non-dict record) is skipped; the
first match is returned, ending the scan; no match yields None. -/
def findJob : List PyVal → PyVal → PyVal
  | [], _ => .none
  | jd :: rest, job_id =>
    match jd with
    | .dict es => if pyEq (dictGet es "JobId" .none) job_id then .dict es else findJob rest job_id
    | _ => findJob rest job_id

/-- Source `get_job_details` (lines 196-208): a failing
`GetRenderJobList` yields None; a falsy result is replaced by `[]`. -/
def get_job_details (p : Project) (job_id : PyVal) : PyVal :=
  match p.renderJobList with
  | .error _ => .none
  | .ok r => findJob (r.getD []) job_id

/-- Source `get_detailed_status` (lines 210-216): None job id or a failing
`GetRenderJobStatus` yields None. -/
def get_detailed_status (p : Project) (job_id : PyVal) : PyVal :=
  if isNone job_id then .none
  else match p.renderJobStatus job_id with
    | .error _ => .none
    | .ok v => v

/-- Behaviour of the Slack client machinery for a single run of
`notify_slack`: the import of slack_sdk may raise, the `WebClient(...)`
construction may raise, and `chat_postMessage` may raise a SlackApiError,
raise something else, or return a response whose optional `ok` field is an
arbitrary value. -/
inductive ClientBehavior where
  | importFail
  | ctorRaise (msg : String)
  | postRaiseApi (errCode : PyVal)
  | postRaiseOther (msg : String)
  | postOk (okField : Option PyVal)

/-- Source `notify_slack` (lines 261-287). The import failure and both
post exceptions are caught and return False; a response reports
`bool(resp.get("ok", True))`. The `WebClient` construction at line 270 is
outside every try block, so an exception there propagates out of the
function, modelled as `Except.error`. -/
def notify_slack (message : String) : ClientBehavior → Except String Bool
  | .importFail => .ok false
  | .ctorRaise m => .error m
  | .postRaiseApi _ => .ok false
  | .postRaiseOther _ => .ok false
  | .postOk okField => .ok (truthy (okField.getD (.bool true)))

/-- True on the behaviours whose error is caught inside `notify_slack`. -/
def isCaughtError : ClientBehavior → Bool
  | .importFail => true
  | .postRaiseApi _ => true
  | .postRaiseOther _ => true
  | _ => false

/-- Observable notification effects of a run; log lines are not recorded. -/
inductive Event where
  | slackAttempt (msg : String)
  | macosAttempt (title msg : String)

/-- The notification tail of `main` (lines 353-356): `notify_slack` is
called, and `notify_macos` runs afterwards unless `notify_slack` raised
(in which case the exception propagates to the `__main__` guard, lines
361-365, and the macOS notification is skipped). -/
def notifyStage (msg : String) (b : ClientBehavior) : List Event :=
  Event.slackAttempt msg ::
    (match notify_slack msg b with
     | .error _ => []
     | .ok _ => [Event.macosAttempt "DaVinci Resolve" msg])

/-- Environment of one run of `main`: the config state plus the outcome of
every external interaction. `projectQuery` collapses lines 323-333
(`GetProjectManager` / `GetCurrentProject` inside one try, with a raise or
a None project both aborting). -/
structure Env where
  writeOk : Bool
  mkdirOk : Bool
  configFile : ConfigFile
  home : String
  today : String
  sdkInstalled : Bool
  resolveAvailable : Bool
  projectQuery : Except Unit (Option Project)
  jobGlobal : PyVal
  statusGlobal : PyVal
  errorGlobal : PyVal
  clientBehavior : ClientBehavior

/-- Source `main` (lines 301-356), as the list of notification events the
run performs. Every abort path produces the empty trace. -/
def main (env : Env) : List Event :=
  if !(init_from_config env.writeOk env.mkdirOk env.configFile env.home env.today).ok then []
  else if !env.sdkInstalled then []
  else if !env.resolveAvailable then []
  else
    match env.projectQuery with
    | .error _ => []
    | .ok Option.none => []
    | .ok (some project) =>
      let project_name := match project.name with
        | .ok s => s
        | .error _ => "(unknown)"
      let detailed_status := get_detailed_status project env.jobGlobal
      let job_details := if isNone env.jobGlobal then PyVal.none
        else get_job_details project env.jobGlobal
      let slack_msg := build_slack_message (.str project_name) env.statusGlobal
        env.errorGlobal job_details detailed_status
      notifyStage slack_msg env.clientBehavior

/-- Spec-side reading of the status field of the detailed-status record:
`Status`, or else `status`, of a structured record; None otherwise. -/
def statusField : PyVal → PyVal
  | .dict es => pyOr (dictGet es "Status" .none) (dictGet es "status" .none)
  | _ => PyVal.none

/-- Status resolution as the specification words it (claim C5): prefer the
stringified trigger status if truthy; else the `Status`/`status` field of a
structured detailed status when that field is truthy; else the stringified
detailed status if truthy; else the literal `"Unknown"`. -/
def pick_status_spec (status_global detailed_status : PyVal) : String :=
  if truthy status_global then pyStr status_global
  else if isDict detailed_status && truthy (statusField detailed_status) then
    pyStr (statusField detailed_status)
  else if truthy detailed_status then pyStr detailed_status
  else "Unknown"

/-- Log directory as the specification words it (claim C8): the
`log_directory` value, defaulting to `~/Desktop` when it is missing, not a
string, or blank after trim. -/
def log_directory_defaulted (cfg : PyDict) : String :=
  match dictGet cfg "log_directory" PyVal.none with
  | .str s => if pyStrip s == "" then "~/Desktop" else s
  | _ => "~/Desktop"

/-- Log path as the specification words it (claim C8): the home-expanded
defaulted directory joined with the date-stamped filename. -/
def build_log_path_spec (cfg : PyDict) (home today : String) : String :=
  joinPath (expanduser home (log_directory_defaulted cfg))
    ("resolve_slack_deliver_" ++ today ++ ".log")

/-- Matching predicate of the render-job scan, for stating the first-match
property of claim C7: a record matches when it is structured and its
`JobId` field compares equal to the searched id. -/
def jobIdMatches (job_id jd : PyVal) : Bool :=
  match jd with
  | .dict es => pyEq (dictGet es "JobId" .none) job_id
  | _ => false

/- ------------------------------------------------------------------ -/
/- Helper lemmas                                                       -/
/- ------------------------------------------------------------------ -/

theorem append_left_ne_empty (a b : String) (h : a ≠ "") : a ++ b ≠ "" := by
  intro hab
  apply h
  have hdata : a.data ++ b.data = [] := by
    have := congrArg String.data hab
    simpa [String.data_append] using this
  have ha : a.data = [] := (List.append_eq_nil.mp hdata).1
  cases a with
  | mk d => simpa using congrArg String.mk ha

theorem append_right_ne_empty (a b : String) (h : b ≠ "") : a ++ b ≠ "" := by
  intro hab
  apply h
  have hdata : a.data ++ b.data = [] := by
    have := congrArg String.data hab
    simpa [String.data_append] using this
  have hb : b.data = [] := (List.append_eq_nil.mp hdata).2
  cases b with
  | mk d => simpa using congrArg String.mk hb

theorem nat_toDigitsCore_ne_nil (b : Nat) :
    ∀ (fuel n : Nat) (ds : List Char), ds ≠ [] → Nat.toDigitsCore b fuel n ds ≠ [] := by
  intro fuel
  induction fuel with
  | zero => intro n ds h; simpa [Nat.toDigitsCore] using h
  | succ fuel ih =>
    intro n ds h
    unfold Nat.toDigitsCore
    by_cases hn : n / b = 0
    · simp [hn]
    · simp only [hn, if_false]
      exact ih _ _ (by simp)

theorem nat_toDigits_ne_nil (b n : Nat) : Nat.toDigits b n ≠ [] := by
  unfold Nat.toDigits Nat.toDigitsCore
  by_cases hn : n / b = 0
  · simp [hn]
  · simp only [hn, if_false]
    exact nat_toDigitsCore_ne_nil b _ _ _ (by simp)

theorem nat_repr_ne_empty (n : Nat) : Nat.repr n ≠ "" := by
  intro h
  apply nat_toDigits_ne_nil 10 n
  have := congrArg String.data h
  simpa [Nat.repr, List.asString] using this

theorem int_repr_ne_empty (n : Int) : Int.repr n ≠ "" := by
  cases n with
  | ofNat m => exact nat_repr_ne_empty m
  | negSucc m => exact append_left_ne_empty "-" _ (by decide)

theorem pyStr_ne_empty (v : PyVal) (h : truthy v = true) : pyStr v ≠ "" := by
  cases v with
  | none => simp [truthy] at h
  | bool b =>
    cases b
    · simp [truthy] at h
    · simp [pyStr, pyRepr]
  | int n =>
    show pyRepr (.int n) ≠ ""
    rw [pyRepr]
    exact int_repr_ne_empty n
  | str s =>
    have : s ≠ "" := by simpa [truthy] using h
    simpa [pyStr] using this
  | list xs =>
    show pyRepr (.list xs) ≠ ""
    rw [pyRepr]
    exact append_right_ne_empty _ "]" (by decide)
  | dict es =>
    show pyRepr (.dict es) ≠ ""
    rw [pyRepr]
    exact append_right_ne_empty _ "\x7d" (by decide)

theorem pick_status_ne_empty (sg ds : PyVal) : pick_status sg ds ≠ "" := by
  unfold pick_status
  split
  · exact pyStr_ne_empty _ (by assumption)
  · simp only []
    split
    · exact pyStr_ne_empty _ (by assumption)
    · split
      · exact pyStr_ne_empty _ (by assumption)
      · decide

theorem joinSep_cons (sep a : String) (l : List String) :
    joinSep sep (a :: l) = a ∨ ∃ r, joinSep sep (a :: l) = a ++ sep ++ r := by
  cases l with
  | nil => exact Or.inl rfl
  | cons b t => exact Or.inr ⟨joinSep sep (b :: t), rfl⟩

theorem findJob_eq_find? (l : List PyVal) (id : PyVal) :
    findJob l id = ((l.find? (jobIdMatches id)).getD PyVal.none) := by
  induction l with
  | nil => rfl
  | cons jd rest ih =>
    cases jd with
    | dict es =>
      cases h : pyEq (dictGet es "JobId" PyVal.none) id with
      | true => simp [findJob, h, List.find?, jobIdMatches]
      | false => simpa [findJob, h, List.find?, jobIdMatches] using ih
    | none => simpa [findJob, List.find?, jobIdMatches] using ih
    | bool b => simpa [findJob, List.find?, jobIdMatches] using ih
    | int n => simpa [findJob, List.find?, jobIdMatches] using ih
    | str s => simpa [findJob, List.find?, jobIdMatches] using ih
    | list xs => simpa [findJob, List.find?, jobIdMatches] using ih

theorem notify_slack_error_eq (msg : String) (b : ClientBehavior) (e : String)
    (h : notify_slack msg b = .error e) : b = .ctorRaise e := by
  cases b <;> simp_all [notify_slack]

theorem notifyStage_slack_mem (msg m : String) (b : ClientBehavior)
    (h : Event.slackAttempt m ∈ notifyStage msg b) : m = msg := by
  cases b <;> simpa [notifyStage, notify_slack] using h

theorem notifyStage_macos_mem (msg : String) (b : ClientBehavior)
    (hb : ∀ s, b ≠ ClientBehavior.ctorRaise s) :
    Event.macosAttempt "DaVinci Resolve" msg ∈ notifyStage msg b := by
  cases b with
  | ctorRaise s => exact absurd rfl (hb s)
  | importFail => simp [notifyStage, notify_slack]
  | postRaiseApi e => simp [notifyStage, notify_slack]
  | postRaiseOther e => simp [notifyStage, notify_slack]
  | postOk f => simp [notifyStage, notify_slack]

theorem main_cases (env : Env) :
    main env = [] ∨ ∃ msg, main env = notifyStage msg env.clientBehavior := by
  unfold main
  split
  · exact Or.inl rfl
  split
  · exact Or.inl rfl
  split
  · exact Or.inl rfl
  split
  · exact Or.inl rfl
  · exact Or.inl rfl
  · exact Or.inr ⟨_, rfl⟩

theorem dictGet_cases : ∀ (es : PyDict) (k : String),
    (∀ d, dictGet es k d = d) ∨ (∃ v, ∀ d, dictGet es k d = v)
  | .nil, _ => Or.inl (fun _ => rfl)
  | .cons k2 v2 tl, k => by
    cases h : k2 == k with
    | true => exact Or.inr ⟨v2, fun d => by simp [dictGet, h]⟩
    | false =>
      rcases dictGet_cases tl k with ha | ⟨v, hv⟩
      · exact Or.inl (fun d => by simp [dictGet, h, ha d])
      · exact Or.inr ⟨v, fun d => by simp [dictGet, h, hv d]⟩

theorem build_eq_joinSep (pn sg eg jd ds : PyVal) :
    ∃ tail, build_slack_message pn sg eg jd ds = joinSep " " (pick_status sg ds :: tail) :=
  ⟨_, rfl⟩

/- ------------------------------------------------------------------ -/
/- Claims                                                              -/
/- ------------------------------------------------------------------ -/

/-- Claim C1, counterexample: loading the freshly written template config
does NOT fail validation.  The placeholder `slack_token` and
`channel_name` values are non-empty after strip, so they pass the only
checks `init_from_config` performs, and it returns True, not Abort. -/
theorem c1_counterexample :
    (init_from_config true true (ConfigFile.json template) "/Users/me" "2026-10-12").ok = true
    ∧ (init_from_config true true (ConfigFile.json template) "/Users/me" "2026-10-12").slack_token
        = "xoxb-REPLACE_WITH_YOUR_TOKEN"
    ∧ (init_from_config true true (ConfigFile.json template) "/Users/me" "2026-10-12").channel_name
        = "CXXXXXXXX" :=
  ⟨rfl, rfl, rfl⟩

/-- Claim C1, amended: on the run that writes the fresh template (config
file absent), `init_from_config` aborts because `ensure_config_exists`
reports the fresh write, not because validation rejects placeholders; the
unedited template itself passes validation, so a later run on it returns
True (given the log directory is available). -/
theorem c1_amended :
    (∀ (writeOk mkdirOk : Bool) (home today : String),
      (init_from_config writeOk mkdirOk ConfigFile.absent home today).ok = false)
    ∧ (∀ home today : String,
      (init_from_config true true (ConfigFile.json template) home today).ok = true) := by
  constructor
  · intro writeOk mkdirOk home today
    cases writeOk <;> rfl
  · intro home today
    rfl

/-- Claim C2, counterexample: an exception raised while constructing the
client (source line 270, outside every try block) is not caught:
`notify_slack` propagates it instead of returning False. -/
theorem c2_counterexample :
    notify_slack "m" (ClientBehavior.ctorRaise "boom") = Except.error "boom" :=
  rfl

/-- Claim C2, amended: for every message and every client behaviour other
than an exception escaping the `WebClient(...)` construction,
`notify_slack` returns normally, and every caught import/API/post error is
reported as the return value False. -/
theorem c2_amended (message : String) (b : ClientBehavior)
    (h : ∀ s, b ≠ ClientBehavior.ctorRaise s) :
    (notify_slack message b).isOk = true
    ∧ (isCaughtError b = true → notify_slack message b = Except.ok false) := by
  cases b with
  | importFail => simp [notify_slack, isCaughtError, Except.isOk, Except.toBool]
  | ctorRaise s => exact absurd rfl (h s)
  | postRaiseApi e => simp [notify_slack, isCaughtError, Except.isOk, Except.toBool]
  | postRaiseOther e => simp [notify_slack, isCaughtError, Except.isOk, Except.toBool]
  | postOk f => simp [notify_slack, isCaughtError, Except.isOk, Except.toBool]

/-- Claim C2, witness for the amended theorem at the import-failure
behaviour. -/
theorem c2_amended_witness :
    (notify_slack "m" ClientBehavior.importFail).isOk = true
    ∧ (isCaughtError ClientBehavior.importFail = true →
        notify_slack "m" ClientBehavior.importFail = Except.ok false) :=
  c2_amended "m" ClientBehavior.importFail (fun _ h => ClientBehavior.noConfusion h)

/-- Claim C3: at the inputs of the claim, the code produces the message
with the mis-encoded arrow characters U+00E2 U+2020 U+2019 that are
literally in the source at line 254, not the single right arrow U+2192
the specification states. -/
theorem c3_code_eval :
    build_slack_message (.str "MyProj") (.str "Complete") .none
      (.dict (.cons "JobId" (.str "42") (.cons "TimelineName" (.str "Main")
        (.cons "OutputFilename" (.str "out.mov") .nil)))) .none
      = "Complete [MyProj] Main â†’ out.mov"
    ∧ build_slack_message (.str "MyProj") (.str "Complete") .none
      (.dict (.cons "JobId" (.str "42") (.cons "TimelineName" (.str "Main")
        (.cons "OutputFilename" (.str "out.mov") .nil)))) .none
      ≠ "Complete [MyProj] Main → out.mov" :=
  ⟨rfl, by decide⟩

/-- Claim C4, counterexample: a run that reaches the notification stage in
which the client construction raises performs the remote attempt but never
the local macOS notification (the exception propagates past line 353 and
skips line 356). -/
theorem c4_counterexample :
    main ⟨true, true, ConfigFile.json template, "/Users/me", "2026-10-12", true, true,
      .ok (some ⟨.ok "MyProj", .ok Option.none, fun _ => .error ()⟩),
      .none, .none, .none, .ctorRaise "boom"⟩
      = [Event.slackAttempt "Unknown [MyProj]"]
    ∧ Event.macosAttempt "DaVinci Resolve" "Unknown [MyProj]" ∉
      main ⟨true, true, ConfigFile.json template, "/Users/me", "2026-10-12", true, true,
        .ok (some ⟨.ok "MyProj", .ok Option.none, fun _ => .error ()⟩),
        .none, .none, .none, .ctorRaise "boom"⟩ := by
  have h : main ⟨true, true, ConfigFile.json template, "/Users/me", "2026-10-12", true, true,
      .ok (some ⟨.ok "MyProj", .ok Option.none, fun _ => .error ()⟩),
      .none, .none, .none, .ctorRaise "boom"⟩
      = [Event.slackAttempt "Unknown [MyProj]"] := rfl
  refine ⟨h, ?_⟩
  rw [h]
  simp

/-- Claim C4, amended: whenever the remote notification attempt happens
and `notify_slack` returns (every client behaviour except an exception
escaping the `WebClient` construction), the local macOS notification is
invoked regardless of the remote outcome. -/
theorem c4_amended (env : Env) (m : String)
    (hs : Event.slackAttempt m ∈ main env)
    (hb : ∀ s, env.clientBehavior ≠ ClientBehavior.ctorRaise s) :
    Event.macosAttempt "DaVinci Resolve" m ∈ main env := by
  rcases main_cases env with h | ⟨msg, h⟩
  · rw [h] at hs
    simp at hs
  · rw [h] at hs ⊢
    have hm := notifyStage_slack_mem msg m env.clientBehavior hs
    rw [hm]
    exact notifyStage_macos_mem msg env.clientBehavior hb

/-- Claim C4, witness for the amended theorem: with a caught Slack API
error, the remote post fails but the macOS notification still happens. -/
theorem c4_amended_witness :
    Event.macosAttempt "DaVinci Resolve" "Unknown [MyProj]" ∈
      main ⟨true, true, ConfigFile.json template, "/Users/me", "2026-10-12", true, true,
        .ok (some ⟨.ok "MyProj", .ok Option.none, fun _ => .error ()⟩),
        .none, .none, .none, .postRaiseApi .none⟩ :=
  c4_amended _ "Unknown [MyProj]"
    (by
      have h : main ⟨true, true, ConfigFile.json template, "/Users/me", "2026-10-12", true, true,
          .ok (some ⟨.ok "MyProj", .ok Option.none, fun _ => .error ()⟩),
          .none, .none, .none, .postRaiseApi .none⟩
          = [Event.slackAttempt "Unknown [MyProj]",
             Event.macosAttempt "DaVinci Resolve" "Unknown [MyProj]"] := rfl
      rw [h]
      simp)
    (fun _ h => ClientBehavior.noConfusion h)

/-- Claim C5: `pick_status` resolves exactly in the order the
specification states — stringified truthy trigger status first, then a
truthy `Status`/`status` field of a structured detailed status, then the
stringified truthy detailed status, then the literal `"Unknown"`. -/
theorem c5_pick_status_precedence (sg ds : PyVal) :
    pick_status sg ds = pick_status_spec sg ds := by
  cases ds <;> simp [pick_status, pick_status_spec, statusField, isDict, truthy]

/-- Claim C6: a config object whose `slack_token` or `channel_name` is
missing or empty after strip makes `init_from_config` return False, and
the run performs no notification call at all. -/
theorem c6_missing_credentials_abort (env : Env) (es : PyDict)
    (hf : env.configFile = ConfigFile.json (PyVal.dict es))
    (hmiss : pyStrip (pyStr (dictGet es "slack_token" (PyVal.str ""))) = ""
      ∨ pyStrip (pyStr (dictGet es "channel_name" (PyVal.str ""))) = "") :
    (init_from_config env.writeOk env.mkdirOk env.configFile env.home env.today).ok = false
    ∧ main env = [] := by
  have hinit : (init_from_config env.writeOk env.mkdirOk env.configFile env.home env.today).ok
      = false := by
    rw [hf]
    unfold init_from_config
    simp only [ensure_config_exists, load_config]
    cases hmk : env.mkdirOk
    · simp [hmk]
    · rcases hmiss with h | h
      · simp [hmk, h]
      · cases h2 : pyStrip (pyStr (dictGet es "slack_token" (PyVal.str ""))) == "" with
        | true => simp [hmk, h2]
        | false => simp [hmk, h2, h]
  refine ⟨hinit, ?_⟩
  unfold main
  simp [hinit]

/-- Claim C6, witness: a config with only `channel_name` set yields an
abort and an empty event trace. -/
theorem c6_witness :
    main ⟨true, true, ConfigFile.json (.dict (.cons "channel_name" (.str "C1") .nil)),
      "/h", "2026-10-12", true, true, Except.ok Option.none,
      .none, .none, .none, .postOk Option.none⟩ = [] :=
  (c6_missing_credentials_abort
    ⟨true, true, ConfigFile.json (.dict (.cons "channel_name" (.str "C1") .nil)),
      "/h", "2026-10-12", true, true, Except.ok Option.none,
      .none, .none, .none, .postOk Option.none⟩
    (.cons "channel_name" (.str "C1") .nil) rfl (Or.inl rfl)).2

/-- Claim C7: the job lookup scans the render job list for the first
record whose `JobId` equals the job identifier (first match wins, as
`List.find?`), and a failing list query, a missing match, or a failing
detailed-status query all yield None instead of aborting. -/
theorem c7_job_lookup (p : Project) (id : PyVal) :
    get_job_details p id =
      (match p.renderJobList with
        | .error _ => PyVal.none
        | .ok r => ((r.getD []).find? (jobIdMatches id)).getD PyVal.none)
    ∧ (p.renderJobList = .error () → get_job_details p id = PyVal.none)
    ∧ (p.renderJobStatus id = .error () → get_detailed_status p id = PyVal.none) := by
  refine ⟨?_, ?_, ?_⟩
  · cases hr : p.renderJobList with
    | error e => simp [get_job_details, hr]
    | ok r => simp [get_job_details, hr, findJob_eq_find?]
  · intro h
    simp [get_job_details, h]
  · intro h
    simp [get_detailed_status, h]

/-- Claim C7, witness: with both host queries failing, both lookups
return None. -/
theorem c7_witness :
    get_job_details ⟨Except.ok "P", Except.error (), fun _ => Except.error ()⟩ (PyVal.str "1")
      = PyVal.none
    ∧ get_detailed_status ⟨Except.ok "P", Except.error (), fun _ => Except.error ()⟩ (PyVal.str "1")
      = PyVal.none :=
  ⟨(c7_job_lookup _ _).2.1 rfl, (c7_job_lookup _ _).2.2 rfl⟩

/-- Claim C8: for every configuration, `build_log_path` is the
home-expanded `log_directory` (defaulted to `~/Desktop` when missing, not
a string, or blank after strip) joined with the date-stamped filename
`resolve_slack_deliver_<date>.log`. -/
theorem c8_build_log_path (cfg : PyDict) (home today : String) :
    build_log_path cfg home today = build_log_path_spec cfg home today := by
  unfold build_log_path build_log_path_spec log_directory_defaulted
  rcases dictGet_cases cfg "log_directory" with hd | ⟨v, hv⟩
  · simp only [hd]
    rfl
  · simp only [hv]

/-- Claim C9: a record of the render job list on which reading the
`JobId` field raises (a non-structured record in this model) is skipped
and the scan continues, so a malformed record before a matching one does
not change the lookup result. -/
theorem c9_skip_bad_record (nm : Except Unit String)
    (rjs : PyVal → Except Unit PyVal) (pre rest : List PyVal) (bad id : PyVal)
    (hbad : isDict bad = false) :
    get_job_details ⟨nm, Except.ok (some (pre ++ bad :: rest)), rjs⟩ id
      = get_job_details ⟨nm, Except.ok (some (pre ++ rest)), rjs⟩ id := by
  have hskip : ∀ l : List PyVal, findJob (l ++ bad :: rest) id = findJob (l ++ rest) id := by
    intro l
    induction l with
    | nil => cases bad <;> simp_all [findJob, isDict]
    | cons a t ih =>
      cases a with
      | dict es => simp [findJob, ih]
      | none => simp [findJob, ih]
      | bool b => simp [findJob, ih]
      | int n => simp [findJob, ih]
      | str s => simp [findJob, ih]
      | list xs => simp [findJob, ih]
  simp [get_job_details, hskip pre]

/-- Claim C9, witness: a non-structured record ahead of the matching one
does not prevent the match. -/
theorem c9_witness :
    get_job_details ⟨Except.ok "P",
        Except.ok (some [PyVal.str "junk", PyVal.dict (.cons "JobId" (.str "42") .nil)]),
        fun _ => Except.error ()⟩ (PyVal.str "42")
      = get_job_details ⟨Except.ok "P",
        Except.ok (some [PyVal.dict (.cons "JobId" (.str "42") .nil)]),
        fun _ => Except.error ()⟩ (PyVal.str "42") :=
  c9_skip_bad_record (Except.ok "P") (fun _ => Except.error ())
    [] [PyVal.dict (.cons "JobId" (.str "42") .nil)] (PyVal.str "junk") (PyVal.str "42") rfl

/-- Claim C10: every message built by `build_slack_message` is non-empty
and begins with the resolved status: it is either the status alone or the
status followed by a space and the remaining segments. -/
theorem c10_message_starts_with_status (pn sg eg jd ds : PyVal) :
    build_slack_message pn sg eg jd ds ≠ ""
    ∧ (build_slack_message pn sg eg jd ds = pick_status sg ds
       ∨ ∃ r, build_slack_message pn sg eg jd ds = pick_status sg ds ++ " " ++ r) := by
  obtain ⟨tail, h⟩ := build_eq_joinSep pn sg eg jd ds
  rcases joinSep_cons " " (pick_status sg ds) tail with h2 | ⟨r, h2⟩
  · refine ⟨?_, Or.inl (h.trans h2)⟩
    rw [h, h2]
    exact pick_status_ne_empty sg ds
  · refine ⟨?_, Or.inr ⟨r, h.trans h2⟩⟩
    rw [h, h2]
    exact append_left_ne_empty _ _ (append_left_ne_empty _ _ (pick_status_ne_empty sg ds))

end JobNotif
